import Mathlib

/-!
# Verification of the Pac-Man ghost-behavior engine

Shallow embedding of `src/controls.py` (ghost controller state machine,
target selection) and `src/game_runner.py` (simulation tick, life loss) of
the `investigating-pacman-ai` repository, together with models of the
external collaborators (`Vector`, `Actor`, `GameState`, timers, grid
helpers) that the repository uses but whose sources are not part of the
core; those models follow the specification's contracts and are marked
`Modelled from the spec`.
-/

set_option maxRecDepth 4000

namespace Pacman

/-- Integer tile vector, embedding `vector.py`'s `Vector` as used for tile
coordinates and directions (componentwise `+`, negation, integer scaling). -/
structure Vec where
  x : Int
  y : Int
deriving DecidableEq, Repr

instance : Add Vec := ⟨fun a b => ⟨a.x + b.x, a.y + b.y⟩⟩
instance : Neg Vec := ⟨fun a => ⟨-a.x, -a.y⟩⟩
instance : HMul Int Vec Vec := ⟨fun k a => ⟨k * a.x, k * a.y⟩⟩

/-- An exact fraction of integers, embedding the float coordinates and
speeds of the source. All values the program builds keep a positive
denominator (literals have denominator 1 and the operations preserve
positivity), under which the comparisons below agree with the numeric
order. -/
structure Q where
  n : Int
  d : Int
deriving DecidableEq, Repr

/-- An integer as a fraction. -/
def Q.ofInt (k : Int) : Q := ⟨k, 1⟩

instance : Add Q := ⟨fun a b => ⟨a.n * b.d + b.n * a.d, a.d * b.d⟩⟩
instance : Sub Q := ⟨fun a b => ⟨a.n * b.d - b.n * a.d, a.d * b.d⟩⟩
instance : Mul Q := ⟨fun a b => ⟨a.n * b.n, a.d * b.d⟩⟩

/-- Numeric strict order on fractions (for positive denominators). -/
def Q.lt (a b : Q) : Bool :=
  a.n * b.d < b.n * a.d

/-- Numeric equality on fractions (for positive denominators), embedding
the float equality tests of the source. -/
def Q.numEq (a b : Q) : Bool :=
  a.n * b.d = b.n * a.d

/-- The factor `0.5` of the source's speed halving. -/
def Q.half : Q := ⟨1, 2⟩

/-- Continuous screen position (embedding the float positions exactly). -/
structure Pos where
  px : Q
  py : Q
deriving DecidableEq, Repr

/-- Numeric equality of positions (`position == DEFAULT_POS`). -/
def posEq (p q : Pos) : Bool :=
  Q.numEq p.px q.px && Q.numEq p.py q.py

/-- Tile kinds of the grid, from the spec's Grid interface:
`Kind ∈ {wall, door, empty, dot, boost}`. -/
inductive Tile where
  | wall | door | empty | dot | boost
deriving DecidableEq, Repr

/-- The grid: rows of tile kinds (`game_runner.py` stores `grid` as a list of
rows, indexed `grid[y][x]`). -/
abbrev Grid := List (List Tile)

/-- Modelled from the spec: the Grid interface's bounds predicate
`within_grid(tile)` (helpers module, not in src): the coordinate indexes an
existing cell of the grid. -/
def withinGrid (g : Grid) (v : Vec) : Bool :=
  0 ≤ v.y && v.y < (g.length : Int) && 0 ≤ v.x &&
    v.x < ((g.getD v.y.toNat []).length : Int)

/-- Reading `grid[v.y][v.x]`; out-of-range reads (which the source guards by
`within_grid`) default to `wall`, the conservative impassable kind (§7). -/
def tileKind (g : Grid) (v : Vec) : Tile :=
  (g.getD v.y.toNat []).getD v.x.toNat Tile.wall

/-- Modelled from the spec: `BAD_TILES` for ghosts (globals module, not in
src) = {wall, door}. -/
def isBad (t : Tile) : Bool :=
  t = Tile.wall || t = Tile.door

/-- The four canonical directions (spec Data Model). -/
inductive Direction where
  | up | down | left | right
deriving DecidableEq, Repr

/-- Modelled from the spec: the `DIRECTION` table (globals module, not in
src) maps each direction to its unit vector in screen coordinates
(y grows downward, so `up = (0, -1)`). -/
def dirVec : Direction → Vec
  | .up => ⟨0, -1⟩
  | .down => ⟨0, 1⟩
  | .left => ⟨-1, 0⟩
  | .right => ⟨1, 0⟩

/-- Modelled from the spec: `DIRECTION_ORDER` (globals module, not in src),
the fixed canonical iteration order over the four directions that the spec
requires to be preserved exactly. -/
def dirOrder : List Direction := [.up, .down, .left, .right]

/-- Modelled from the spec: `grid_distance` (helpers module, not in src) is
the straight-line distance; we embed its square, an integer, which induces
the same order and equalities on distances. -/
def gridDistance (a b : Vec) : Int :=
  (a.x - b.x) * (a.x - b.x) + (a.y - b.y) * (a.y - b.y)

/-- Global behavior mode as stored in the controller's `mode` field:
`'scatter'`, `'chase'`, or the transient `''` written by `set_frightened`. -/
inductive Mode where
  | scatter | chase | unset
deriving DecidableEq, Repr

/-- Ghost behavior machine states: `'inactive'`, `'home'`, `'active'`. -/
inductive GState where
  | inactive | home | active
deriving DecidableEq, Repr

/-- The four ghost variants, in the fixed construction/processing order. -/
inductive Variant where
  | blinky | pinky | inky | clyde
deriving DecidableEq, Repr

/-! ## The Actor collaborator (modelled from the spec, §3/§6) -/

/-- Modelled from the spec: `TILE_SIZE` (globals module, not in src), the
side length of one grid cell. -/
def tileSize : Int := 8

/-- Floor of a fraction divided by the (positive) tile size:
`floor((n/d) / s) = fdiv n (d*s)` for `d, s > 0`. -/
def tileCoord (q : Q) : Int :=
  Int.fdiv q.n (q.d * tileSize)

/-- The mutable part of an actor: continuous position, current direction,
colour and speed (`game_state.ActorState`, not in src). -/
structure ActorCore where
  pos : Pos
  dir : Vec
  colour : Nat
  speed : Q
deriving DecidableEq, Repr

/-- Modelled from the spec: an Actor owns its current state and remembers
its spawn state, to which `reset` snaps it back. -/
structure Actor where
  cur : ActorCore
  spawn : ActorCore
deriving DecidableEq, Repr

/-- The actor's `tile() = floor(position / tile-size)` (spec §3 Actor contract). -/
def Actor.tile (a : Actor) : Vec :=
  ⟨tileCoord a.cur.pos.px, tileCoord a.cur.pos.py⟩

/-- A tile a ghost can occupy: in bounds and not a bad (wall/door) tile. -/
def passable (g : Grid) (v : Vec) : Bool :=
  withinGrid g v && !isBad (tileKind g v)

/-- Modelled from the spec: `change_direction(grid, requested)` only accepts
the requested direction if the tile ahead is passable, else retains the
current direction; a `None` request is ignored. -/
def changeDirection (g : Grid) (a : Actor) : Option Vec → Actor
  | none => a
  | some d =>
      if passable g (a.tile + d) then { a with cur := { a.cur with dir := d } } else a

/-- Modelled from the spec: `reset_direction()` forces the actor's direction
back to the neutral zero vector. -/
def resetDirection (a : Actor) : Actor :=
  { a with cur := { a.cur with dir := ⟨0, 0⟩ } }

/-- Modelled from the spec: `Actor.reset(to)` snaps the actor back to its
spawn state; a target position, when given, overrides the spawn position. -/
def Actor.reset (a : Actor) : Option Pos → Actor
  | none => { a with cur := a.spawn }
  | some p => { a with cur := { a.spawn with pos := p } }

/-- Modelled from the spec: `Actor.update(grid)` advances the continuous
position one tick along the current direction at the actor's speed,
snapping to grid constraints (the move is dropped if it would leave the
passable area). -/
def Actor.update (g : Grid) (a : Actor) : Actor :=
  if a.cur.dir = ⟨0, 0⟩ then a
  else
    let p : Pos := ⟨a.cur.pos.px + a.cur.speed * Q.ofInt a.cur.dir.x,
                    a.cur.pos.py + a.cur.speed * Q.ofInt a.cur.dir.y⟩
    let moved := { a with cur := { a.cur with pos := p } }
    if passable g moved.tile then moved else a

/-- Modelled from the spec: `rect()` is the actor's axis-aligned bounding
box, one tile in size, anchored at its position. -/
def Actor.rectOverlap (a b : Actor) : Bool :=
  let ts := Q.ofInt tileSize
  Q.lt a.cur.pos.px (b.cur.pos.px + ts) && Q.lt b.cur.pos.px (a.cur.pos.px + ts) &&
  Q.lt a.cur.pos.py (b.cur.pos.py + ts) && Q.lt b.cur.pos.py (a.cur.pos.py + ts)

/-- Modelled from the spec: `lerp` moves a position toward a target by the
given interpolation weight (`position.lerp(target, speed)`). -/
def lerp (p t : Pos) (w : Q) : Pos :=
  ⟨p.px + (t.px - p.px) * w, p.py + (t.py - p.py) * w⟩

/-- Modelled from the spec: `DEFAULT_POS`, the release point at which a
ghost leaving home becomes active (globals module, not in src). -/
def defaultPos : Pos := ⟨Q.ofInt (14 * 8), Q.ofInt (14 * 8)⟩

/-- Modelled from the spec: `GHOST_POS[1]`, the pen waypoint used while a
ghost walks out of the home pen (globals module, not in src). -/
def ghostPenPos : Pos := ⟨Q.ofInt (13 * 8), Q.ofInt (17 * 8)⟩

/-! ## GhostController state (`src/controls.py`) -/

/-- The mutable fields of `GhostController`: `_next_tile`,
`_next_direction`, `state`, `mode`, `_is_frightened`. -/
structure GhostState where
  nextTile : Option Vec
  nextDirection : Option Vec
  state : GState
  mode : Mode
  frightened : Bool
deriving DecidableEq, Repr

/-- A ghost controller together with the actor it drives. -/
structure Ctrl where
  gs : GhostState
  actor : Actor
deriving DecidableEq, Repr

/-- The state a variant's `__init__` leaves the controller in:
`GhostController.__init__` writes `'inactive'`, then `BlinkyController`
overwrites it with `'active'`, `PinkyController` with `'home'`, and
`InkyController`/`ClydeController` with `'inactive'`. -/
def initState : Variant → GState
  | .blinky => .active
  | .pinky => .home
  | .inky => .inactive
  | .clyde => .inactive

/-- Embedding of `GhostController.__init__` (with the variant subclass's override of
`state`): no pending tile/direction, mode synced from the game oracle,
not frightened. -/
def ghostInit (v : Variant) (gmode : Mode) : GhostState :=
  { nextTile := none, nextDirection := none, state := initState v,
    mode := gmode, frightened := false }

/-- The default `state` argument of each variant's `reset`: the base class
defaults to `'active'` (inherited by Blinky); Pinky, Inky and Clyde
override the default to `'inactive'`. -/
def resetState : Variant → GState
  | .blinky => .active
  | .pinky => .inactive
  | .inky => .inactive
  | .clyde => .inactive

/-- Embedding of `GhostController.reset(state)`: clears `_next_tile`/`_next_direction`,
forces `state`, resyncs `mode` from the oracle. (`_is_frightened` is left
untouched.) -/
def resetCtl (v : Variant) (gmode : Mode) (s : GhostState) : GhostState :=
  { s with nextTile := none, nextDirection := none, state := resetState v,
           mode := gmode }

/-- Modelled from the spec: `FRIGHT`, the distinguishing frightened colour
(globals module, not in src), encoded as an arbitrary fixed colour code. -/
def frightColour : Nat := 999

/-- Embedding of `GhostController.set_frightened(is_frightened)`: edge-triggered speed
halving / restoring and mode clearing, then the flag is written
(`reset_colour`/`reset_speed` restore the spawn colour and speed). -/
def setFrightened (b : Bool) (s : Ctrl) : Ctrl :=
  if !s.gs.frightened && b then
    let c := { s.actor.cur with colour := frightColour, speed := s.actor.cur.speed * Q.half }
    { gs := { s.gs with mode := .unset, frightened := b },
      actor := { s.actor with cur := c } }
  else if s.gs.frightened && !b then
    let c := { s.actor.cur with colour := s.actor.spawn.colour, speed := s.actor.spawn.speed }
    { gs := { s.gs with mode := .unset, frightened := b },
      actor := { s.actor with cur := c } }
  else
    { s with gs := { s.gs with frightened := b } }

/-- Embedding of `check_active()` of the four variants (`controls.py`): Blinky always
true; Pinky `dot_counter >= 7` but only after a life was lost; Inky
`>= 30` (no life lost) / `>= 17` (life lost); Clyde `>= 60` / `>= 32`. -/
def checkActive (v : Variant) (lostLife : Bool) (dotCounter : Nat) : Bool :=
  match v with
  | .blinky => true
  | .pinky => if lostLife then dotCounter ≥ 7 else false
  | .inky => if !lostLife then dotCounter ≥ 30 else dotCounter ≥ 17
  | .clyde => if !lostLife then dotCounter ≥ 60 else dotCounter ≥ 32

/-- Embedding of `scatter_target()` of the four variants (`controls.py`). -/
def scatterTarget : Variant → Vec
  | .blinky => ⟨25, 0⟩
  | .pinky => ⟨2, 0⟩
  | .inky => ⟨27, 35⟩
  | .clyde => ⟨0, 35⟩

/-- Embedding of `PinkyController.chase_target()`: four tiles ahead of the player,
except that a player facing up yields `player_tile + (-4, -4)`
(the preserved original up-targeting quirk). -/
def pinkyChase (playerTile playerDir : Vec) : Vec :=
  if playerDir ≠ dirVec .up then playerTile + (4 : Int) * playerDir
  else playerTile + (⟨-4, -4⟩ : Vec)

/-- Embedding of `InkyController.chase_target()`: reflect Blinky's tile through the
pivot two tiles ahead of the player. -/
def inkyChase (playerTile playerDir blinkyTile : Vec) : Vec :=
  let pivot := playerTile + (2 : Int) * playerDir
  pivot + -(blinkyTile + -pivot)

/-- Embedding of `ClydeController.chase_target()`: the player's tile while farther than
8 tiles from it, else the scatter corner. The source compares the
straight-line distance with 8; we compare its square with 64, which is
equivalent. -/
def clydeChase (selfTile playerTile : Vec) : Vec :=
  if gridDistance selfTile playerTile > 64 then playerTile else ⟨0, 35⟩

/-- The snapshot of game state a single `control()` call reads: global
mode, grid, the two targets of this variant (evaluated against the live
game state by the caller), the activation inputs, and the random stream
feeding `random.choice`. -/
structure Oracle where
  gmode : Mode
  grid : Grid
  scatterT : Vec
  chaseT : Vec
  lostLife : Bool
  dotCounter : Nat
  rng : List Nat
deriving Repr

/-- The target `control_target` measures distances to: the scatter target
when `self.mode == 'scatter'`, else the chase target. -/
def targetOf (o : Oracle) (m : Mode) : Vec :=
  if m = Mode.scatter then o.scatterT else o.chaseT

/-- Whether `control_target`/`control_fright` reject the candidate tile:
out of bounds, the actor's own tile, or a bad tile. -/
def rejected (g : Grid) (tile cand : Vec) : Bool :=
  !withinGrid g cand || cand = tile || isBad (tileKind g cand)

/-- The loop of `control_target`, folding over the remaining directions
with the best direction so far and its distance (`None` before the first
accepted candidate). -/
def ctAux (g : Grid) (tile pending target : Vec) :
    List Direction → Vec → Option Int → Vec
  | [], best, _ => best
  | d :: ds, best, bestDist =>
      let cand := pending + dirVec d
      if rejected g tile cand then ctAux g tile pending target ds best bestDist
      else
        let dist := gridDistance cand target
        match bestDist with
        | none => ctAux g tile pending target ds (dirVec d) (some dist)
        | some bd =>
            if dist < bd then ctAux g tile pending target ds (dirVec d) (some dist)
            else ctAux g tile pending target ds best bestDist

/-- Embedding of `GhostController.control_target()`: starting from the reverse of the
actor's direction, greedily keep the accepted candidate direction with the
strictly smallest distance to the mode's target. Returns the new
`_next_direction`. -/
def controlTarget (o : Oracle) (tile adir pending : Vec) (m : Mode) : Vec :=
  ctAux o.grid tile pending (targetOf o m) dirOrder (-adir) none

/-- Embedding of `GhostController.control_fright()`: collect the accepted candidate
directions in canonical order and draw one at random (the draw indexes the
injected random stream); reverse the actor's direction when none is
accepted. Returns the new `_next_direction` and the remaining stream. -/
def controlFright (g : Grid) (tile pending adir : Vec) (rng : List Nat) :
    Vec × List Nat :=
  let candidates := (dirOrder.filter (fun d => !rejected g tile (pending + dirVec d))).map dirVec
  if candidates.isEmpty then (-adir, rng)
  else
    match rng with
    | [] => (candidates.getD 0 ⟨0, 0⟩, [])
    | n :: rest => (candidates.getD (n % candidates.length) ⟨0, 0⟩, rest)

/-- Embedding of `GhostController.control_home()`: at the release point become active;
otherwise interpolate toward the release point (once aligned with its x)
or toward the pen waypoint. -/
def controlHome (s : Ctrl) : Ctrl :=
  if posEq s.actor.cur.pos defaultPos then
    { s with gs := { s.gs with state := .active } }
  else if Q.numEq s.actor.cur.pos.px defaultPos.px then
    { s with actor := { s.actor with
        cur := { s.actor.cur with pos := lerp s.actor.cur.pos defaultPos s.actor.cur.speed } } }
  else
    { s with actor := { s.actor with
        cur := { s.actor.cur with pos := lerp s.actor.cur.pos ghostPenPos s.actor.cur.speed } } }

/-- Embedding of `GhostController.control()`: the per-tick driver of the behavior state
machine. In `'active'`: resync a changed global mode (clearing the pending
decision and resetting the actor's direction); return early while the
pending tile is set and not yet reached; otherwise commit the pending
direction, advance the pending tile (`tile` on the first decision, else
`tile + _next_direction`), and compute the next direction via
`control_target` or `control_fright`. In `'home'`: `control_home()`. In
`'inactive'`: become `'home'` once `check_active()` holds. Returns the new
controller-and-actor state and the remaining random stream. -/
def controlStep (v : Variant) (o : Oracle) (s : Ctrl) : Ctrl × List Nat :=
  match s.gs.state with
  | .active =>
      let synced : Ctrl :=
        if s.gs.mode ≠ o.gmode then
          { gs := { s.gs with nextTile := none, nextDirection := none, mode := o.gmode },
            actor := resetDirection s.actor }
        else s
      let tile := synced.actor.tile
      let waiting : Bool :=
        match synced.gs.nextTile with
        | some p => tile ≠ p
        | none => false
      if waiting then (synced, o.rng)
      else
        let a2 := changeDirection o.grid synced.actor synced.gs.nextDirection
        let pending : Vec :=
          match synced.gs.nextTile with
          | none => tile
          | some _ => tile + synced.gs.nextDirection.getD ⟨0, 0⟩
        let gs2 := { synced.gs with nextTile := some pending }
        if !gs2.frightened then
          let d := controlTarget o a2.tile a2.cur.dir pending gs2.mode
          (⟨{ gs2 with nextDirection := some d }, a2⟩, o.rng)
        else
          let (d, rng') := controlFright o.grid a2.tile pending a2.cur.dir o.rng
          (⟨{ gs2 with nextDirection := some d }, a2⟩, rng')
  | .home => (controlHome s, o.rng)
  | .inactive =>
      if checkActive v o.lostLife o.dotCounter then
        ({ s with gs := { s.gs with state := .home } }, o.rng)
      else (s, o.rng)

/-! ## Timers (modelled from the spec, §6 GameState/oracle interface) -/

/-- Modelled from the spec: the timers object of the game state (game_state
module, not in src): a start-gate countdown, the frighten-duration
countdown together with the one-shot elapse flag consumed by
`check_boost()` (true exactly once when the frighten duration elapses),
the per-boost `boost_level`, and the per-ghost release countdown. -/
structure Timers where
  startTimer : Nat
  boostTimer : Nat
  boostElapsed : Bool
  boostLevel : Nat
  releaseTimer : Nat
deriving DecidableEq, Repr

/-- Modelled from the spec: `check_start()` — the round has not yet started
while the start gate is counting down. -/
def checkStart (t : Timers) : Bool :=
  t.startTimer ≠ 0

/-- Modelled from the spec: `timers.update()` advances the countdowns; the
tick on which the frighten duration reaches zero arms the one-shot elapse
flag. -/
def timersUpdate (t : Timers) : Timers :=
  let t1 := { t with startTimer := t.startTimer - 1,
                     releaseTimer := t.releaseTimer - 1 }
  if t1.boostTimer = 0 then t1
  else
    let b := t1.boostTimer - 1
    { t1 with boostTimer := b, boostElapsed := (b = 0) || t1.boostElapsed }

/-- Modelled from the spec: `check_boost()` is true exactly once when the
frighten duration elapses — it reports the one-shot flag and consumes it. -/
def checkBoost (t : Timers) : Bool × Timers :=
  (t.boostElapsed, { t with boostElapsed := false })

/-- Modelled from the spec: `BOOST_TIME`, the frighten duration restarted
by `set_boost()` (globals module, not in src). -/
def boostTime : Nat := 600

/-- Modelled from the spec: `set_boost()` restarts the frighten duration
and the per-boost level. -/
def setBoost (t : Timers) : Timers :=
  { t with boostTimer := boostTime, boostElapsed := false, boostLevel := 0 }

/-- Modelled from the spec: `set_start()` rearms the start gate. -/
def setStart (t : Timers) : Timers :=
  { t with startTimer := 90 }

/-- Modelled from the spec: `set_release()` rearms the per-ghost release
countdown. -/
def setRelease (t : Timers) : Timers :=
  { t with releaseTimer := 240 }

/-! ## The simulation tick (`src/game_runner.py`) -/

/-- Modelled from the spec: score constants `DOT_SCORE`, `BOOST_SCORE` and
the escalating per-boost-level table `GHOST_SCORE` (game_constants module,
not in src). -/
def dotScore : Int := 10

/-- Modelled from the spec: points for eating a boost. -/
def boostScore : Int := 50

/-- Modelled from the spec: escalating points for eating the n-th ghost of
one boost. -/
def ghostScore : List Int := [200, 400, 800, 1600]

/-- Modelled from the spec: `HOME_POS`, the spawn an eaten ghost is
snapped back to, and `HOME_TIME`, its stay-home countdown (game_constants
module, not in src). -/
def homePos : Pos := ⟨Q.ofInt (13 * 8), Q.ofInt (17 * 8)⟩

/-- Modelled from the spec: the eaten ghost's stay-home countdown value. -/
def homeTime : Int := 60

/-- A ghost slot of the game roster: variant tag, controller + actor, and
the eaten-ghost `home_timer`. -/
structure GhostCtl where
  v : Variant
  ctl : Ctrl
  homeTimer : Int
deriving DecidableEq, Repr

/-- The chase target of a variant, read from the live game snapshot
(`chase_target()` of each subclass): Blinky the player's tile; Pinky four
ahead (with the up quirk); Inky the reflection of Blinky's tile through
the pivot two ahead; Clyde the player's tile or the scatter corner by
distance. -/
def chaseTargetOf (v : Variant) (player : Actor) (selfTile blinkyTile : Vec) : Vec :=
  match v with
  | .blinky => player.tile
  | .pinky => pinkyChase player.tile player.cur.dir
  | .inky => inkyChase player.tile player.cur.dir blinkyTile
  | .clyde => clydeChase selfTile player.tile

/-- The scalar state threaded through the ghost loop of `Game.update`:
timers (mutated by `check_boost` and the boost level), the score, and the
random stream. -/
structure LoopSt where
  timers : Timers
  score : Int
  rng : List Nat
deriving DecidableEq, Repr

/-- One iteration of the ghost loop of `Game.update` (lines 161–183 of
`game_runner.py`): consume the boost-elapse check and clear the flag on
true; drive the controller; move the actor; then resolve the collision
with the player — an overlapped frightened ghost is eaten (flag cleared,
sent home, score and boost level bumped); an overlapped non-frightened
ghost reports a life loss. The final component is true exactly when the
life-loss break fires. -/
def processGhost (gmode : Mode) (grid : Grid) (lostLife : Bool) (dotCounter : Nat)
    (player : Actor) (blinkyTile : Vec) (ls : LoopSt) (g : GhostCtl) :
    LoopSt × GhostCtl × Bool :=
  let bt := checkBoost ls.timers
  let g1 := if bt.1 then { g with ctl := setFrightened false g.ctl } else g
  let o : Oracle :=
    { gmode := gmode, grid := grid, scatterT := scatterTarget g1.v,
      chaseT := chaseTargetOf g1.v player g1.ctl.actor.tile blinkyTile,
      lostLife := lostLife, dotCounter := dotCounter, rng := ls.rng }
  let cr := controlStep g1.v o g1.ctl
  let a3 := Actor.update grid cr.1.actor
  let g3 := { g1 with ctl := { gs := cr.1.gs, actor := a3 } }
  let collide := Actor.rectOverlap player a3
  if collide && g3.ctl.gs.frightened then
    let c4 := setFrightened false g3.ctl
    let c5 : Ctrl := { gs := { c4.gs with state := GState.home },
                       actor := c4.actor.reset (some homePos) }
    let g5 := { g3 with ctl := c5, homeTimer := homeTime }
    ({ timers := { bt.2 with boostLevel := bt.2.boostLevel + 1 },
       score := ls.score + ghostScore.getD bt.2.boostLevel 0,
       rng := cr.2 }, g5, false)
  else if collide then
    ({ timers := bt.2, score := ls.score, rng := cr.2 }, g3, true)
  else
    ({ timers := bt.2, score := ls.score, rng := cr.2 }, g3, false)

/-- The ghost loop of `Game.update`: fold `processGhost` over the roster,
accumulating the processed prefix; on a life-loss collision stop at once,
returning the roster with the remaining ghosts untouched and the break
flag set. `ghosts[0]` (Blinky), as read live by Inky's target, is the head
of the processed prefix, or the current ghost while the prefix is empty. -/
def ghostLoop (gmode : Mode) (grid : Grid) (lostLife : Bool) (dotCounter : Nat)
    (player : Actor) (acc : List GhostCtl) (ls : LoopSt) :
    List GhostCtl → LoopSt × List GhostCtl × Bool
  | [] => (ls, acc, false)
  | g :: todo =>
      let blinkyTile := ((acc.headD g)).ctl.actor.tile
      let r := processGhost gmode grid lostLife dotCounter player blinkyTile ls g
      if r.2.2 then (r.1, acc ++ r.2.1 :: todo, true)
      else ghostLoop gmode grid lostLife dotCounter player (acc ++ [r.2.1]) r.1 todo

/-- The full game state of the simulator: the `GameState` scalars
(modelled from the spec), the global scatter/chase oscillator value, the
player actor, the ghost roster in construction order, the grid and the
random stream. -/
structure GameSt where
  lives : Int
  score : Int
  dotCounter : Nat
  lostLife : Bool
  gmode : Mode
  timers : Timers
  player : Actor
  ghosts : List GhostCtl
  grid : Grid
  rng : List Nat
deriving DecidableEq, Repr

/-- Embedding of `Game.lose_life` (lines 205–218 of `game_runner.py`): set `lost_life`,
zero `dot_counter`, decrement `lives`, rearm the start and release timers,
and reset every controller of the roster and its actor. Modelled from the
spec: `state.controllers` (game_state module, not in src) holds every
controller registered at construction — the four ghost controllers and
the player controller — so the player's actor is reset as well. -/
def loseLifeFn (st : GameSt) : GameSt :=
  { st with
    lostLife := true
    dotCounter := 0
    lives := st.lives - 1
    timers := setRelease (setStart st.timers)
    ghosts := st.ghosts.map (fun g =>
      { g with ctl := { gs := resetCtl g.v st.gmode g.ctl.gs,
                        actor := g.ctl.actor.reset none } })
    player := st.player.reset none }

/-- Writing one grid cell (`self.grid[tile.y][tile.x] = ...`). -/
def setTile (g : Grid) (v : Vec) (t : Tile) : Grid :=
  g.set v.y.toNat ((g.getD v.y.toNat []).set v.x.toNat t)

/-- Embedding of `Game.check_win`: no dot or boost tile remains. -/
def checkWin (g : Grid) : Bool :=
  !(g.any (fun row => row.any (fun t => t = Tile.dot || t = Tile.boost)))

/-- Embedding of `Game.update` (lines 146–203 of `game_runner.py`): gate on the start
timer; advance timers; drive and move the player (the input controller
receives no events in simulation, so only the move acts); run the ghost
loop, applying `lose_life` if it broke on a collision; consume a dot or
boost under the player (a boost frightens every ghost); report whether
the game ended. -/
def update (st : GameSt) : GameSt × Bool :=
  if checkStart st.timers then (st, false)
  else
    let t1 := timersUpdate st.timers
    let p1 := st.player.update st.grid
    let lr := ghostLoop st.gmode st.grid st.lostLife st.dotCounter p1 []
      { timers := t1, score := st.score, rng := st.rng } st.ghosts
    let st1 := { st with timers := lr.1.timers, score := lr.1.score,
                         rng := lr.1.rng, player := p1, ghosts := lr.2.1 }
    let st2 := if lr.2.2 then loseLifeFn st1 else st1
    let tile := st2.player.tile
    let st3 :=
      match tileKind st2.grid tile with
      | Tile.dot =>
          { st2 with grid := setTile st2.grid tile Tile.empty,
                     score := st2.score + dotScore,
                     dotCounter := st2.dotCounter + 1 }
      | Tile.boost =>
          { st2 with grid := setTile st2.grid tile Tile.empty,
                     score := st2.score + boostScore,
                     timers := setBoost st2.timers,
                     ghosts := st2.ghosts.map (fun g => { g with ctl := setFrightened true g.ctl }) }
      | _ => st2
    (st3, st3.lives ≤ 0 || checkWin st3.grid)

/-! ## Controller call sequences (for the pending-tile invariant) -/

/-- One externally driven controller event: a full `reset()` (the oracle
mode is resynced into the controller) or one `control()` call against a
snapshot of the game state. -/
inductive GOp where
  | reset (gmode : Mode)
  | control (o : Oracle)

/-- Replay a sequence of `reset`/`control` calls on a controller. -/
def runOps (v : Variant) : Ctrl → List GOp → Ctrl
  | s, [] => s
  | s, GOp.reset m :: ops => runOps v ⟨resetCtl v m s.gs, s.actor⟩ ops
  | s, GOp.control o :: ops => runOps v (controlStep v o s).1 ops

/-- Whether at least one decision has been committed since the last reset:
a `control()` call commits exactly when it runs in the `'active'` state. -/
def committedAfter (v : Variant) : Ctrl → Bool → List GOp → Bool
  | _, flag, [] => flag
  | s, _, GOp.reset m :: ops => committedAfter v ⟨resetCtl v m s.gs, s.actor⟩ false ops
  | s, flag, GOp.control o :: ops =>
      committedAfter v (controlStep v o s).1 (flag || s.gs.state = GState.active) ops

/-! ## The claim's description of target selection (for refinement) -/

/-- Following the claim's words: a direction is admissible when its
candidate tile is inside the grid, differs from the actor's tile and is
not a bad tile. -/
def admissible (g : Grid) (tile pending : Vec) (d : Direction) : Bool :=
  !rejected g tile (pending + dirVec d)

/-- Following the claim's words: the admissible directions in the fixed
canonical order. -/
def acceptedDirs (g : Grid) (tile pending : Vec) : List Direction :=
  dirOrder.filter (admissible g tile pending)

/-- Following the claim's words: the first element attaining the strictly
smallest key — a later element replaces the best only when strictly
smaller. -/
def firstArgmin (f : Direction → Int) (best : Direction) : List Direction → Direction
  | [] => best
  | d :: ds => if f d < f best then firstArgmin f d ds else firstArgmin f best ds

/-- Following the claim's words: the direction `control_target` should
select — the first-argmin by distance to the mode's target among the
accepted candidates, or the reverse of the actor's direction if no
candidate is accepted. -/
def claimedChoice (o : Oracle) (tile adir pending : Vec) (m : Mode) : Vec :=
  match acceptedDirs o.grid tile pending with
  | [] => -adir
  | d :: ds =>
      dirVec (firstArgmin (fun e => gridDistance (pending + dirVec e) (targetOf o m)) d ds)

/-! ## Concrete states used to instantiate theorems -/

/-- A concrete actor at the origin, standing still. -/
def exActor : Actor :=
  { cur := { pos := ⟨Q.ofInt 0, Q.ofInt 0⟩, dir := ⟨0, 0⟩, colour := 1, speed := Q.ofInt 1 },
    spawn := { pos := ⟨Q.ofInt 0, Q.ofInt 0⟩, dir := ⟨0, 0⟩, colour := 1, speed := Q.ofInt 1 } }

/-- A concrete freshly constructed first-variant controller. -/
def exCtrl : Ctrl :=
  { gs := ghostInit Variant.blinky Mode.scatter, actor := exActor }

/-- A concrete fully open 3×3 grid. -/
def exGrid : Grid := List.replicate 3 (List.replicate 3 Tile.empty)

/-- A concrete oracle over the open grid, in scatter mode. -/
def exOracle : Oracle :=
  { gmode := Mode.scatter, grid := exGrid, scatterT := ⟨0, 0⟩, chaseT := ⟨0, 0⟩,
    lostLife := false, dotCounter := 0, rng := [] }

/-- A concrete oracle over the open grid, in chase mode. -/
def exOracleChase : Oracle :=
  { gmode := Mode.chase, grid := exGrid, scatterT := ⟨0, 0⟩, chaseT := ⟨0, 0⟩,
    lostLife := false, dotCounter := 0, rng := [] }

/-- A concrete active controller waiting for the pending tile `(5, 5)`
while synced to scatter mode. -/
def exCtrlWaiting : Ctrl :=
  { gs := { nextTile := some ⟨5, 5⟩, nextDirection := some ⟨1, 0⟩,
            state := GState.active, mode := Mode.scatter, frightened := false },
    actor := exActor }

/-- A concrete all-zero timers record (round started, no boost pending). -/
def exTimersZero : Timers :=
  { startTimer := 0, boostTimer := 0, boostElapsed := false, boostLevel := 0,
    releaseTimer := 0 }

/-- A concrete loop state with the all-zero timers. -/
def exLs : LoopSt := { timers := exTimersZero, score := 0, rng := [] }

/-- A concrete non-frightened active ghost standing on the player (waiting
for a far-away pending tile, so its control call takes the early return). -/
def exGhostColliding : GhostCtl :=
  { v := Variant.blinky, ctl := exCtrlWaiting, homeTimer := 0 }

/-- A concrete game state in which the first ghost overlaps the player
while not frightened: the tick loses a life. -/
def exGameStCollide : GameSt :=
  { lives := 3, score := 0, dotCounter := 5, lostLife := false,
    gmode := Mode.scatter, timers := exTimersZero, player := exActor,
    ghosts := [exGhostColliding], grid := exGrid, rng := [] }

/-- A concrete fully open 12×12 grid. -/
def exGrid12 : Grid := List.replicate 12 (List.replicate 12 Tile.empty)

/-- A concrete frightened active ghost at tile `(5, 5)`, standing still,
its mode still unset from the frighten edge. -/
def exGhostFright0 : GhostCtl :=
  { v := Variant.blinky,
    ctl := { gs := { nextTile := some ⟨9, 9⟩, nextDirection := some ⟨1, 0⟩,
                     state := GState.active, mode := Mode.unset, frightened := true },
             actor := { cur := { pos := ⟨Q.ofInt 40, Q.ofInt 40⟩, dir := ⟨0, 0⟩,
                                 colour := 2, speed := Q.ofInt 1 },
                        spawn := { pos := ⟨Q.ofInt 40, Q.ofInt 40⟩, dir := ⟨0, 0⟩,
                                   colour := 2, speed := Q.ofInt 1 } } },
    homeTimer := 0 }

/-- A concrete frightened active ghost at tile `(10, 10)`, standing still,
synced to scatter mode and waiting for a pending tile it has not reached. -/
def exGhostFright1 : GhostCtl :=
  { v := Variant.pinky,
    ctl := { gs := { nextTile := some ⟨9, 9⟩, nextDirection := some ⟨1, 0⟩,
                     state := GState.active, mode := Mode.scatter, frightened := true },
             actor := { cur := { pos := ⟨Q.ofInt 80, Q.ofInt 80⟩, dir := ⟨0, 0⟩,
                                 colour := 3, speed := Q.ofInt 1 },
                        spawn := { pos := ⟨Q.ofInt 80, Q.ofInt 80⟩, dir := ⟨0, 0⟩,
                                   colour := 3, speed := Q.ofInt 1 } } },
    homeTimer := 0 }

/-- A concrete game state on the tick the frighten duration elapses: two
frightened ghosts far from the player, the boost countdown at its last
tick. -/
def exGameStFright : GameSt :=
  { lives := 3, score := 0, dotCounter := 0, lostLife := false,
    gmode := Mode.scatter,
    timers := { startTimer := 0, boostTimer := 1, boostElapsed := false,
                boostLevel := 0, releaseTimer := 0 },
    player := exActor, ghosts := [exGhostFright0, exGhostFright1],
    grid := exGrid12, rng := [] }

/-! ## Helper lemmas -/

theorem vec_add (a b : Vec) : a + b = ⟨a.x + b.x, a.y + b.y⟩ := rfl

theorem vec_neg (a : Vec) : -a = ⟨-a.x, -a.y⟩ := rfl

theorem vec_smul (k : Int) (a : Vec) : k * a = ⟨k * a.x, k * a.y⟩ := rfl

theorem setFrightened_flag (b : Bool) (s : Ctrl) :
    (setFrightened b s).gs.frightened = b := by
  unfold setFrightened
  split
  · rfl
  · split <;> rfl

theorem setFrightened_same (b : Bool) (s : Ctrl) (h : s.gs.frightened = b) :
    setFrightened b s = s := by
  obtain ⟨⟨nt, nd, stt, md, fr⟩, a⟩ := s
  cases b <;> cases fr <;> simp_all [setFrightened]

/-! ## Claim C4 -/

/-- C4, counterexample: the claim says every ghost behavior controller
except the first variant is constructed in state `'inactive'`; but the
second variant (Pinky) is constructed in state `'home'`
(`PinkyController.__init__`). -/
theorem c4_counterexample :
    (ghostInit Variant.pinky Mode.scatter).state = GState.home ∧
    (ghostInit Variant.pinky Mode.scatter).state ≠ GState.inactive := by
  decide

/-- C4, amended: every ghost behavior controller is constructed in state
`'inactive'`, except the first variant (Blinky), constructed in
`'active'`, and the second variant (Pinky), constructed in `'home'`. -/
theorem c4_construction_states (m : Mode) :
    (ghostInit Variant.blinky m).state = GState.active ∧
    (ghostInit Variant.pinky m).state = GState.home ∧
    (ghostInit Variant.inky m).state = GState.inactive ∧
    (ghostInit Variant.clyde m).state = GState.inactive :=
  ⟨rfl, rfl, rfl, rfl⟩

/-! ## Claim C7 -/

/-- C7: variant B's (Pinky's) chase target equals the player's tile plus
`(-4, -4)` exactly when the player's direction is up, and equals the
player's tile plus four times the player's direction for every other
direction. -/
theorem c7_pinky_chase_target (pt : Vec) (d : Direction) :
    (pinkyChase pt (dirVec d) = pt + (⟨-4, -4⟩ : Vec) ↔ d = Direction.up) ∧
    (d ≠ Direction.up → pinkyChase pt (dirVec d) = pt + (4 : Int) * dirVec d) := by
  cases d <;>
    simp [pinkyChase, dirVec, vec_add, vec_smul, Vec.mk.injEq]

/-- C7, witness: the theorem at the player tile `(10, 20)` facing down. -/
theorem c7_witness :
    Direction.down ≠ Direction.up ∧
    pinkyChase (⟨10, 20⟩ : Vec) (dirVec Direction.down) = ⟨10, 24⟩ := by
  refine ⟨by decide, ?_⟩
  have h := (c7_pinky_chase_target ⟨10, 20⟩ Direction.down).2 (by decide)
  rw [h]; decide

/-! ## Claim C8 -/

/-- C8: for each of the four ghost variants and for every fixed value of
`lost_life`, `check_active()` is monotonic in `dot_counter`: once true at
some counter value, it is true at every larger one. -/
theorem c8_check_active_monotone (v : Variant) (ll : Bool) (d1 d2 : Nat)
    (hle : d1 ≤ d2) (h : checkActive v ll d1 = true) :
    checkActive v ll d2 = true := by
  cases v <;> cases ll <;> simp_all [checkActive] <;> omega

/-- C8, witness: Pinky after a lost life, counters 7 and 9. -/
theorem c8_witness :
    (7 : Nat) ≤ 9 ∧ checkActive Variant.pinky true 7 = true ∧
    checkActive Variant.pinky true 9 = true :=
  ⟨by decide, by decide,
    c8_check_active_monotone Variant.pinky true 7 9 (by decide) (by decide)⟩

/-! ## Claim C9 -/

/-- C9: `set_frightened` is edge-triggered and idempotent — a call with
the already-current value changes nothing (so two consecutive
`set_frightened(true)` calls halve the speed only once); the false→true
edge halves the speed and clears the mode; the true→false edge restores
the spawn speed and clears the mode. -/
theorem c9_set_frightened_edges (s : Ctrl) :
    (∀ b, s.gs.frightened = b → setFrightened b s = s) ∧
    (s.gs.frightened = false →
       (setFrightened true s).gs.frightened = true ∧
       (setFrightened true s).gs.mode = Mode.unset ∧
       (setFrightened true s).actor.cur.speed = s.actor.cur.speed * Q.half ∧
       (setFrightened true s).actor.cur.colour = frightColour) ∧
    (s.gs.frightened = true →
       (setFrightened false s).gs.frightened = false ∧
       (setFrightened false s).gs.mode = Mode.unset ∧
       (setFrightened false s).actor.cur.speed = s.actor.spawn.speed ∧
       (setFrightened false s).actor.cur.colour = s.actor.spawn.colour) ∧
    setFrightened true (setFrightened true s) = setFrightened true s := by
  refine ⟨fun b h => setFrightened_same b s h, ?_, ?_, ?_⟩
  · intro h; simp [setFrightened, h]
  · intro h; simp [setFrightened, h]
  · exact setFrightened_same true (setFrightened true s) (setFrightened_flag true s)

/-- C9, witness: the theorem at a concrete frightened-free controller. -/
theorem c9_witness :
    (exCtrl.gs.frightened = false) ∧
    (setFrightened true exCtrl).actor.cur.speed = exCtrl.actor.cur.speed * Q.half ∧
    (setFrightened true exCtrl).gs.mode = Mode.unset := by
  refine ⟨rfl, ?_, ?_⟩
  · exact ((c9_set_frightened_edges exCtrl).2.1 rfl).2.2.1
  · exact ((c9_set_frightened_edges exCtrl).2.1 rfl).2.1

/-! ## Claim C10 -/

/-- C10: `lose_life` resets every controller of the game state's roster,
the player's controller included, so after every life loss the player's
actor is snapped back to its spawn state; every ghost controller's
pending decision is cleared and its actor is back at spawn. -/
theorem c10_lose_life_resets_all (st : GameSt) :
    (loseLifeFn st).player.cur = st.player.spawn ∧
    (loseLifeFn st).lostLife = true ∧
    (loseLifeFn st).dotCounter = 0 ∧
    (loseLifeFn st).lives = st.lives - 1 ∧
    (loseLifeFn st).ghosts.length = st.ghosts.length ∧
    ∀ g ∈ (loseLifeFn st).ghosts,
      g.ctl.gs.nextTile = none ∧ g.ctl.gs.nextDirection = none ∧
      g.ctl.actor.cur = g.ctl.actor.spawn := by
  refine ⟨rfl, rfl, rfl, rfl, by simp [loseLifeFn], ?_⟩
  intro g hg
  simp only [loseLifeFn, List.mem_map] at hg
  obtain ⟨g0, _, rfl⟩ := hg
  exact ⟨rfl, rfl, rfl⟩

/-! ## Claim C2 -/

theorem ctAux_some_eq (g : Grid) (tile pending target : Vec) (L : List Direction)
    (e : Direction) :
    ctAux g tile pending target L (dirVec e)
        (some (gridDistance (pending + dirVec e) target)) =
      dirVec (firstArgmin (fun d => gridDistance (pending + dirVec d) target) e
        (L.filter (admissible g tile pending))) := by
  induction L generalizing e with
  | nil => rfl
  | cons d ds ih =>
      by_cases hr : rejected g tile (pending + dirVec d) = true
      · have ha : admissible g tile pending d = false := by
          simp [admissible, hr]
        simp only [ctAux, hr, if_true, List.filter_cons, ha, Bool.false_eq_true,
          if_false]
        exact ih e
      · have hr' : rejected g tile (pending + dirVec d) = false :=
          Bool.eq_false_iff.mpr hr
        have ha : admissible g tile pending d = true := by
          simp [admissible, hr']
        simp only [ctAux, hr', Bool.false_eq_true, if_false, List.filter_cons, ha,
          if_true, firstArgmin]
        by_cases hlt : gridDistance (pending + dirVec d) target <
            gridDistance (pending + dirVec e) target

        · simp only [hlt, if_true]
          exact ih d
        · simp only [hlt, if_false]
          exact ih e

theorem ctAux_none_eq (g : Grid) (tile pending target : Vec) (L : List Direction)
    (b : Vec) :
    ctAux g tile pending target L b none =
      (match L.filter (admissible g tile pending) with
       | [] => b
       | d :: ds =>
           dirVec (firstArgmin (fun e => gridDistance (pending + dirVec e) target) d ds)) := by
  induction L with
  | nil => rfl
  | cons d ds ih =>
      by_cases hr : rejected g tile (pending + dirVec d) = true
      · have ha : admissible g tile pending d = false := by
          simp [admissible, hr]
        simp only [ctAux, hr, if_true, List.filter_cons, ha, Bool.false_eq_true,
          if_false]
        exact ih
      · have hr' : rejected g tile (pending + dirVec d) = false :=
          Bool.eq_false_iff.mpr hr
        have ha : admissible g tile pending d = true := by
          simp [admissible, hr']
        simp only [ctAux, hr', Bool.false_eq_true, if_false, List.filter_cons, ha,
          if_true]
        exact ctAux_some_eq g tile pending target ds d

/-- The shared refinement fact: `control_target` computes exactly the
claim's described selection. -/
theorem controlTarget_eq_claimedChoice (o : Oracle) (tile adir pending : Vec)
    (m : Mode) :
    controlTarget o tile adir pending m = claimedChoice o tile adir pending m := by
  unfold controlTarget claimedChoice acceptedDirs
  exact ctAux_none_eq o.grid tile pending (targetOf o m) dirOrder (-adir)

/-- C2: for a non-frightened active ghost with a committed pending tile,
`control_target` iterates the four directions in the fixed canonical
order, rejects candidates that are out of bounds, equal to the actor's
tile or bad, keeps the first direction attaining the strictly smallest
straight-line distance to the scatter target (in scatter mode) or chase
target (otherwise), and falls back to the reverse of the actor's
direction when no candidate is accepted. -/
theorem c2_control_target_selection (o : Oracle) (tile adir pending : Vec) (m : Mode) :
    controlTarget o tile adir pending m =
      (match acceptedDirs o.grid tile pending with
       | [] => -adir
       | d :: ds =>
           dirVec (firstArgmin
             (fun e => gridDistance (pending + dirVec e) (targetOf o m)) d ds)) :=
  controlTarget_eq_claimedChoice o tile adir pending m

/-! ## Claim C3 -/

theorem firstArgmin_mem (f : Direction → Int) (b : Direction) (L : List Direction) :
    firstArgmin f b L ∈ b :: L := by
  induction L generalizing b with
  | nil => simp [firstArgmin]
  | cons d ds ih =>
      unfold firstArgmin
      by_cases h : f d < f b
      · simp only [h, if_true]
        have := ih d
        simp at this ⊢
        tauto
      · simp only [h, if_false]
        have := ih b
        simp at this ⊢
        tauto

theorem admissible_within_not_bad (g : Grid) (tile pending : Vec) (d : Direction)
    (h : admissible g tile pending d = true) :
    withinGrid g (pending + dirVec d) = true ∧
      isBad (tileKind g (pending + dirVec d)) = false := by
  simp [admissible, rejected] at h
  exact ⟨h.1.1, h.2⟩

theorem vec_add_neg_cancel (a b : Vec) : (a + b) + -b = a := by
  cases a; cases b
  simp [vec_add, vec_neg, Vec.mk.injEq]

/-- C3: the direction `control_target` selects never has a candidate tile
outside the grid or on a wall/door, in every reachable decision state.
Reachability is captured by the invariant the control loop maintains at
each `control_target` call: the actor's tile is in bounds and passable,
and the pending decision tile is the actor's tile plus its committed
direction (the first decision commits the zero direction) — or else some
direction is outright admissible. -/
theorem c3_selected_direction_safe (o : Oracle) (tile adir pending : Vec) (m : Mode)
    (ht : withinGrid o.grid tile = true)
    (hb : isBad (tileKind o.grid tile) = false)
    (hreach : pending = tile + adir ∨
      ∃ d, d ∈ dirOrder ∧ admissible o.grid tile pending d = true) :
    withinGrid o.grid (pending + controlTarget o tile adir pending m) = true ∧
      isBad (tileKind o.grid (pending + controlTarget o tile adir pending m)) = false := by
  rw [controlTarget_eq_claimedChoice]
  unfold claimedChoice
  rcases hacc : acceptedDirs o.grid tile pending with _ | ⟨d, ds⟩
  · have hnone : ∀ e, e ∈ dirOrder → ¬ admissible o.grid tile pending e = true := by
      intro e he hadm
      have : e ∈ acceptedDirs o.grid tile pending :=
        List.mem_filter.mpr ⟨he, hadm⟩
      rw [hacc] at this
      exact absurd this (List.not_mem_nil e)
    rcases hreach with hpend | ⟨e, he, hadm⟩
    · subst hpend
      rw [vec_add_neg_cancel]
      exact ⟨ht, hb⟩
    · exact absurd hadm (hnone e he)
  · have hmem : firstArgmin
        (fun e => gridDistance (pending + dirVec e) (targetOf o m)) d ds ∈
        acceptedDirs o.grid tile pending := by
      rw [hacc]
      exact firstArgmin_mem _ d ds
    have hadm := (List.mem_filter.mp hmem).2
    exact admissible_within_not_bad o.grid tile pending _ hadm

/-- C3, witness: the theorem on the open 3×3 grid with the ghost at tile
`(1, 1)` moving right, pending tile `(2, 1)`. -/
theorem c3_witness :
    withinGrid exGrid ⟨1, 1⟩ = true ∧
    isBad (tileKind exGrid ⟨1, 1⟩) = false ∧
    (⟨2, 1⟩ : Vec) = (⟨1, 1⟩ : Vec) + (⟨1, 0⟩ : Vec) ∧
    withinGrid exGrid
      ((⟨2, 1⟩ : Vec) + controlTarget exOracle ⟨1, 1⟩ ⟨1, 0⟩ ⟨2, 1⟩ Mode.scatter) = true ∧
    isBad (tileKind exGrid
      ((⟨2, 1⟩ : Vec) + controlTarget exOracle ⟨1, 1⟩ ⟨1, 0⟩ ⟨2, 1⟩ Mode.scatter)) = false := by
  have h := c3_selected_direction_safe exOracle ⟨1, 1⟩ ⟨1, 0⟩ ⟨2, 1⟩ Mode.scatter
    (by decide) (by decide) (Or.inl (by decide))
  exact ⟨by decide, by decide, by decide, h.1, h.2⟩

/-! ## Claim C6 -/

theorem controlStep_active_pending (v : Variant) (o : Oracle) (s : Ctrl)
    (h : s.gs.state = GState.active) :
    (controlStep v o s).1.gs.nextTile.isSome = true := by
  obtain ⟨⟨nt, nd, stt, md, fr⟩, a⟩ := s
  simp only at h
  subst h
  rcases nt with _ | p <;> by_cases hm : md = o.gmode <;>
    cases fr <;> simp [controlStep, hm] <;> split <;> simp

theorem controlStep_nonactive_pending (v : Variant) (o : Oracle) (s : Ctrl)
    (h : ¬ s.gs.state = GState.active) :
    (controlStep v o s).1.gs.nextTile = s.gs.nextTile := by
  obtain ⟨⟨nt, nd, stt, md, fr⟩, a⟩ := s
  cases stt with
  | active => exact absurd rfl h
  | home =>
      simp only [controlStep, controlHome]
      split
      · rfl
      · split <;> rfl
  | inactive =>
      simp only [controlStep]
      split <;> rfl

theorem runOps_pending_iff (v : Variant) (s : Ctrl) (flag : Bool) (ops : List GOp)
    (hinv : s.gs.nextTile ≠ none ↔ flag = true) :
    ((runOps v s ops).gs.nextTile ≠ none ↔ committedAfter v s flag ops = true) := by
  induction ops generalizing s flag with
  | nil => exact hinv
  | cons op rest ih =>
      cases op with
      | reset m =>
          apply ih
          simp [resetCtl]
      | control o =>
          apply ih
          by_cases h : s.gs.state = GState.active
          · have h1 := controlStep_active_pending v o s h
            rw [Option.isSome_iff_ne_none] at h1
            have hd : decide (s.gs.state = GState.active) = true := decide_eq_true h
            rw [hd, Bool.or_true]
            exact ⟨fun _ => rfl, fun _ => h1⟩
          · have h2 := controlStep_nonactive_pending v o s h
            have hd : decide (s.gs.state = GState.active) = false :=
              decide_eq_false h
            rw [h2, hd, Bool.or_false]
            exact hinv

/-- C6, counterexample: the claim asserts that while `pending_tile` is set
and the actor's tile differs from it, an active `control()` changes
nothing; but when the global mode changed since the last call, `control()`
clears and recomputes the pending decision even though the actor has not
reached the pending tile. -/
theorem c6_counterexample :
    exCtrlWaiting.gs.state = GState.active ∧
    exCtrlWaiting.gs.nextTile = some ⟨5, 5⟩ ∧
    exCtrlWaiting.actor.tile ≠ (⟨5, 5⟩ : Vec) ∧
    (controlStep Variant.blinky exOracleChase exCtrlWaiting).1.gs.nextTile ≠
      some ⟨5, 5⟩ := by
  decide

/-- C6, amended: `pending_tile` is set exactly when at least one decision
has been committed (a `control()` call ran in the active state) since the
last reset; and while it is set, the actor's tile differs from it, and the
controller's mode matches the game's current mode, an active `control()`
call leaves the whole controller-and-actor state (and the random stream)
unchanged. -/
theorem c6_pending_commitment_invariant :
    (∀ (v : Variant) (m : Mode) (a : Actor) (ops : List GOp),
      ((runOps v ⟨ghostInit v m, a⟩ ops).gs.nextTile ≠ none ↔
        committedAfter v ⟨ghostInit v m, a⟩ false ops = true)) ∧
    (∀ (v : Variant) (o : Oracle) (s : Ctrl) (p : Vec),
      s.gs.state = GState.active → s.gs.mode = o.gmode →
      s.gs.nextTile = some p → s.actor.tile ≠ p →
      controlStep v o s = (s, o.rng)) := by
  constructor
  · intro v m a ops
    apply runOps_pending_iff
    simp [ghostInit]
  · intro v o s p h1 h2 h3 h4
    obtain ⟨⟨nt, nd, stt, md, fr⟩, a⟩ := s
    simp only at h1 h2 h3
    subst h1; subst h2; subst h3
    simp [controlStep, h4]

/-- C6, witness: the amended theorem at a freshly constructed controller
driven by one control call, and at the concrete waiting state. -/
theorem c6_witness :
    ((runOps Variant.blinky ⟨ghostInit Variant.blinky Mode.scatter, exActor⟩
        [GOp.control exOracle]).gs.nextTile ≠ none ↔
      committedAfter Variant.blinky ⟨ghostInit Variant.blinky Mode.scatter, exActor⟩
        false [GOp.control exOracle] = true) ∧
    (exCtrlWaiting.gs.state = GState.active ∧
     exCtrlWaiting.gs.mode = exOracle.gmode ∧
     exCtrlWaiting.gs.nextTile = some ⟨5, 5⟩ ∧
     exCtrlWaiting.actor.tile ≠ (⟨5, 5⟩ : Vec) ∧
     controlStep Variant.blinky exOracle exCtrlWaiting = (exCtrlWaiting, exOracle.rng)) := by
  refine ⟨c6_pending_commitment_invariant.1 Variant.blinky Mode.scatter exActor
    [GOp.control exOracle], by decide, by decide, by decide, by decide, ?_⟩
  exact c6_pending_commitment_invariant.2 Variant.blinky exOracle exCtrlWaiting ⟨5, 5⟩
    (by decide) (by decide) (by decide) (by decide)

/-! ## Lemmas about the ghost loop of the simulation tick -/

theorem controlStep_frightened (v : Variant) (o : Oracle) (s : Ctrl) :
    (controlStep v o s).1.gs.frightened = s.gs.frightened := by
  obtain ⟨⟨nt, nd, stt, md, fr⟩, a⟩ := s
  cases stt with
  | active =>
      rcases nt with _ | p <;> by_cases hm : md = o.gmode <;>
        cases fr <;> simp [controlStep, hm] <;> split <;> simp
  | home =>
      simp only [controlStep, controlHome]
      split
      · rfl
      · split <;> rfl
  | inactive =>
      simp only [controlStep]
      split <;> rfl

theorem resetCtl_frightened (v : Variant) (m : Mode) (s : GhostState) :
    (resetCtl v m s).frightened = s.frightened := rfl

theorem update_spawn (g : Grid) (a : Actor) : (Actor.update g a).spawn = a.spawn := by
  unfold Actor.update
  split
  · rfl
  · dsimp only
    split <;> rfl

theorem reset_none_tile_eq (a b : Actor) (h : a.spawn = b.spawn) :
    (a.reset none).tile = (b.reset none).tile := by
  simp [Actor.reset, Actor.tile, h]

theorem processGhost_flag_cleared (gm : Mode) (grid : Grid) (ll : Bool) (dc : Nat)
    (player : Actor) (bt : Vec) (ls : LoopSt) (g : GhostCtl)
    (h : ls.timers.boostElapsed = true) :
    ((processGhost gm grid ll dc player bt ls g).2.1).ctl.gs.frightened = false := by
  simp only [processGhost, checkBoost, h, if_true]
  split
  · simp [setFrightened_flag]
  · split <;> simp [controlStep_frightened, setFrightened_flag]

theorem ghostLoop_roster_extends (gm : Mode) (grid : Grid) (ll : Bool) (dc : Nat)
    (p : Actor) (todo : List GhostCtl) :
    ∀ acc ls, ∃ t, (ghostLoop gm grid ll dc p acc ls todo).2.1 = acc ++ t := by
  induction todo with
  | nil =>
      intro acc ls
      exact ⟨[], by simp [ghostLoop]⟩
  | cons g rest ih =>
      intro acc ls
      simp only [ghostLoop]
      split
      · exact ⟨_ :: rest, rfl⟩
      · obtain ⟨t, ht⟩ := ih
          (acc ++ [(processGhost gm grid ll dc p ((acc.headD g)).ctl.actor.tile ls g).2.1])
          (processGhost gm grid ll dc p ((acc.headD g)).ctl.actor.tile ls g).1
        refine ⟨(processGhost gm grid ll dc p ((acc.headD g)).ctl.actor.tile ls g).2.1 :: t, ?_⟩
        rw [ht]
        simp

theorem ghostLoop_append (gm : Mode) (grid : Grid) (ll : Bool) (dc : Nat) (p : Actor)
    (l1 l2 : List GhostCtl) :
    ∀ acc ls ls1 acc1, ghostLoop gm grid ll dc p acc ls l1 = (ls1, acc1, false) →
      ghostLoop gm grid ll dc p acc ls (l1 ++ l2) =
        ghostLoop gm grid ll dc p acc1 ls1 l2 := by
  induction l1 with
  | nil =>
      intro acc ls ls1 acc1 h
      simp only [ghostLoop, Prod.mk.injEq] at h
      rw [List.nil_append, ← h.1, ← h.2.1]
  | cons g rest ih =>
      intro acc ls ls1 acc1 h
      simp only [ghostLoop, List.cons_append] at h ⊢
      by_cases hr : (processGhost gm grid ll dc p ((acc.headD g)).ctl.actor.tile ls g).2.2 = true
      · rw [if_pos hr] at h
        simp only [Prod.mk.injEq] at h
        exact absurd h.2.2 (by simp)
      · rw [if_neg hr] at h ⊢
        exact ih _ _ _ _ h

theorem tileKind_ne_boost_of_all (g : Grid)
    (h : g.all (fun row => row.all (fun t => !(t = Tile.boost))) = true) (v : Vec) :
    tileKind g v ≠ Tile.boost := by
  unfold tileKind
  rcases hrow : g[v.y.toNat]? with _ | row
  · simp [List.getD_eq_getElem?_getD, hrow]
  · have hrmem : row ∈ g := by
      apply List.get?_mem
      rw [List.get?_eq_getElem?, hrow]
    have hrall := (List.all_eq_true.mp h) row hrmem
    rcases hcell : row[v.x.toNat]? with _ | t
    · simp [List.getD_eq_getElem?_getD, hrow, hcell]
    · have htmem : t ∈ row := by
        apply List.get?_mem
        rw [List.get?_eq_getElem?, hcell]
      have hne := (List.all_eq_true.mp hrall) t htmem
      simp only [Bool.not_eq_true', decide_eq_false_iff_not] at hne
      simp [List.getD_eq_getElem?_getD, hrow, hcell, hne]

/-! ## Claim C5 -/

/-- C5: in a tick whose ghost loop reaches a ghost whose moved rectangle
overlaps the player's while it is not frightened (`hproc` reports the
life-loss break after a clean prefix `hpre`), `lose_life` runs: lives
drop by one, `lost_life` is set, `dot_counter` resets to 0 (the player's
spawn tile holding no consumable), every ghost controller's pending tile
and direction become unset, the player is back at spawn, and the ghosts
after the colliding one enter the final state exactly as `lose_life`'s
reset of their untouched pre-tick state — they are neither controlled,
nor moved, nor evaluated for collision in that tick. -/
theorem c5_life_loss_short_circuit
    (st : GameSt) (pre post : List GhostCtl) (gi gi2 : GhostCtl)
    (ls1 ls2 : LoopSt) (acc1 : List GhostCtl)
    (hstart : checkStart st.timers = false)
    (hsplit : st.ghosts = pre ++ gi :: post)
    (hpre : ghostLoop st.gmode st.grid st.lostLife st.dotCounter
        (st.player.update st.grid) []
        { timers := timersUpdate st.timers, score := st.score, rng := st.rng } pre =
      (ls1, acc1, false))
    (hproc : processGhost st.gmode st.grid st.lostLife st.dotCounter
        (st.player.update st.grid) ((acc1.headD gi)).ctl.actor.tile ls1 gi =
      (ls2, gi2, true))
    (hdot : tileKind st.grid ((st.player.reset none).tile) ≠ Tile.dot)
    (hboost : tileKind st.grid ((st.player.reset none).tile) ≠ Tile.boost) :
    (update st).1.lives = st.lives - 1 ∧
    (update st).1.lostLife = true ∧
    (update st).1.dotCounter = 0 ∧
    (update st).1.player.cur = st.player.spawn ∧
    (update st).1.ghosts = (acc1 ++ gi2 :: post).map (fun g =>
      { g with ctl := { gs := resetCtl g.v st.gmode g.ctl.gs,
                        actor := g.ctl.actor.reset none } }) ∧
    ∀ g ∈ (update st).1.ghosts,
      g.ctl.gs.nextTile = none ∧ g.ctl.gs.nextDirection = none := by
  have hgl : ghostLoop st.gmode st.grid st.lostLife st.dotCounter
      (st.player.update st.grid) []
      { timers := timersUpdate st.timers, score := st.score, rng := st.rng } st.ghosts =
      (ls2, acc1 ++ gi2 :: post, true) := by
    rw [hsplit,
      ghostLoop_append st.gmode st.grid st.lostLife st.dotCounter
        (st.player.update st.grid) pre (gi :: post) _ _ _ _ hpre]
    simp only [ghostLoop]
    rw [hproc]
    rfl
  have htile : ((st.player.update st.grid).reset none).tile =
      ((st.player.reset none)).tile :=
    reset_none_tile_eq _ _ (update_spawn _ _)
  simp only [update, hstart, Bool.false_eq_true, if_false, hgl]
  simp only [if_true, loseLifeFn, htile]
  rcases hk : tileKind st.grid ((st.player.reset none).tile) with _ | _ | _ | _ | _
  case dot => exact absurd hk hdot
  case boost => exact absurd hk hboost
  all_goals
    refine ⟨trivial, trivial, trivial, update_spawn st.grid st.player, trivial, ?_⟩
    intro g hg
    simp only [List.mem_map] at hg
    obtain ⟨g0, _, rfl⟩ := hg
    exact ⟨rfl, rfl⟩

/-- C5, witness: the theorem on the concrete one-ghost colliding state. -/
theorem c5_witness :
    checkStart exGameStCollide.timers = false ∧
    (update exGameStCollide).1.lives = exGameStCollide.lives - 1 ∧
    (update exGameStCollide).1.lostLife = true ∧
    (update exGameStCollide).1.dotCounter = 0 ∧
    (update exGameStCollide).1.player.cur = exGameStCollide.player.spawn ∧
    ∀ g ∈ (update exGameStCollide).1.ghosts,
      g.ctl.gs.nextTile = none ∧ g.ctl.gs.nextDirection = none := by
  have h := c5_life_loss_short_circuit exGameStCollide [] [] exGhostColliding
    exGhostColliding
    { timers := timersUpdate exGameStCollide.timers, score := exGameStCollide.score,
      rng := exGameStCollide.rng }
    exLs [] (by decide) rfl rfl (by decide) (by decide) (by decide)
  exact ⟨by decide, h.1, h.2.1, h.2.2.1, h.2.2.2.1, h.2.2.2.2.2⟩

/-! ## Claim C1 -/

theorem ghostLoop_head_flag (gm : Mode) (grid : Grid) (ll : Bool) (dc : Nat)
    (p : Actor) (g0 : GhostCtl) (rest : List GhostCtl) (ls : LoopSt)
    (h : ls.timers.boostElapsed = true) :
    ((ghostLoop gm grid ll dc p [] ls (g0 :: rest)).2.1.head?.map
      (fun g => g.ctl.gs.frightened)) = some false := by
  simp only [ghostLoop]
  by_cases hbrk :
    (processGhost gm grid ll dc p (([] : List GhostCtl).headD g0).ctl.actor.tile ls g0).2.2 = true
  · rw [if_pos hbrk]
    simp [processGhost_flag_cleared gm grid ll dc p _ ls g0 h]
  · rw [if_neg hbrk]
    obtain ⟨t, ht⟩ := ghostLoop_roster_extends gm grid ll dc p rest
      ([] ++ [(processGhost gm grid ll dc p
        (([] : List GhostCtl).headD g0).ctl.actor.tile ls g0).2.1])
      (processGhost gm grid ll dc p (([] : List GhostCtl).headD g0).ctl.actor.tile ls g0).1
    rw [ht]
    simp [processGhost_flag_cleared gm grid ll dc p _ ls g0 h]

/-- C1, counterexample: a tick on which the frighten duration elapses with
two frightened, non-colliding ghosts: the claim demands that every
ghost's frightened flag is cleared, but after the tick the second ghost is
still frightened — the one-shot `check_boost()` is consumed by the first
loop iteration. -/
theorem c1_counterexample :
    (timersUpdate exGameStFright.timers).boostElapsed = true ∧
    exGameStFright.ghosts.map (fun g => g.ctl.gs.frightened) = [true, true] ∧
    (update exGameStFright).1.ghosts.map (fun g => g.ctl.gs.frightened) =
      [false, true] := by
  decide

/-- C1, amended: on the tick in which the frighten duration elapses (the
one-shot boost check arming during that tick's timer update), the
simulation step clears the frightened flag of the first ghost in the
enumeration order only — the single true answer of `check_boost()` is
consumed by the first loop iteration — so after the tick the first ghost
is not frightened (given the player does not step onto a boost, which the
boost-free grid rules out). -/
theorem c1_boost_elapse_unfrightens_first_ghost
    (st : GameSt) (g0 : GhostCtl) (rest : List GhostCtl)
    (hg : st.ghosts = g0 :: rest)
    (hstart : checkStart st.timers = false)
    (helapsed : (timersUpdate st.timers).boostElapsed = true)
    (hnoboost : st.grid.all (fun row => row.all (fun t => !(t = Tile.boost))) = true) :
    ((update st).1.ghosts.head?.map (fun g => g.ctl.gs.frightened)) = some false := by
  have hloop := ghostLoop_head_flag st.gmode st.grid st.lostLife st.dotCounter
    (st.player.update st.grid) g0 rest
    { timers := timersUpdate st.timers, score := st.score, rng := st.rng } helapsed
  simp only [update, hstart, Bool.false_eq_true, if_false, hg]
  rcases hlr : ghostLoop st.gmode st.grid st.lostLife st.dotCounter
      (st.player.update st.grid) []
      { timers := timersUpdate st.timers, score := st.score, rng := st.rng }
      (g0 :: rest) with ⟨lsX, roster, b⟩
  rw [hlr] at hloop
  simp only [hlr]
  rcases hh : roster.head? with _ | gh
  · rw [hh] at hloop
    simp at hloop
  · rw [hh] at hloop
    simp only [Option.map_some', Option.some.injEq] at hloop
    cases b
    · simp only [Bool.false_eq_true, if_false]
      rcases hk : tileKind st.grid ((st.player.update st.grid).tile)
        with _ | _ | _ | _ | _
      case boost =>
        exact absurd hk (tileKind_ne_boost_of_all st.grid hnoboost _)
      all_goals
        simp only [hk, hh, Option.map_some', Option.some.injEq]
        exact hloop
    · rw [if_pos rfl]
      simp only [loseLifeFn]
      rcases hk : tileKind st.grid (((st.player.update st.grid).reset none).tile)
        with _ | _ | _ | _ | _
      case boost =>
        exact absurd hk (tileKind_ne_boost_of_all st.grid hnoboost _)
      all_goals
        simp only [hk, List.head?_map, hh, Option.map_some', Option.some.injEq,
          resetCtl_frightened]
        exact hloop

/-- C1, witness: the amended theorem on the concrete elapsing-tick state
with two frightened ghosts. -/
theorem c1_witness :
    (timersUpdate exGameStFright.timers).boostElapsed = true ∧
    (update exGameStFright).1.ghosts.head?.map (fun g => g.ctl.gs.frightened) =
      some false := by
  refine ⟨by decide, ?_⟩
  exact c1_boost_elapse_unfrightens_first_ghost exGameStFright exGhostFright0
    [exGhostFright1] rfl (by decide) (by decide) (by decide)

end Pacman
